import Mathlib

/-!
# Verification of the feed algorithm core (src/core/feed/algorithm.py)

Shallow embedding of the class `FeedAlgorithm`. Conventions:
* Python floats are modelled as exact rationals (`ℚ`); the single
  transcendental operation `np.exp` is modelled as `Real.exp`, so the full
  candidate score lives in `ℝ`.
* Python dicts whose key sets are observable (iterated or deleted from) are
  modelled as insertion-ordered association lists; `defaultdict` reads of
  absent keys behave as the default value.
* `datetime.utcnow()` is an ambient input of the Python code; it is made an
  explicit `now : ℚ` argument (seconds).
* Fallible code (attribute errors) is modelled with `Except String`.
* Methods of the class that are called but absent from the source are
  modelled from the specification; each such definition carries a doc
  comment starting with `Modelled from the spec:`.
-/

/-- Free-form metadata map attached to an interaction
(`metadata: Dict[str, Any]`); its contents are never inspected by the core,
so an opaque association list of strings suffices. -/
abbrev Metadata := List (String × String)

/-- A candidate item ("prompt") as read by the feed core. The Python code
reads these fields from a dict, with `.get` defaults for possibly-absent
keys (`effectiveness_score` 0.5, counts 0, `trending_score` 0,
`template` the empty string); the structure models an item where every
field is present, which is the case the claims quantify over.
`created_at` is a timestamp in seconds. -/
structure Prompt where
  effectiveness_score : ℚ
  usage_count : ℕ
  remix_count : ℕ
  unique_users : ℕ
  trending_score : ℚ
  created_at : ℚ
  creator_id : String
  template : String
  deriving Repr, DecidableEq

/-- One recorded interaction (`record_interaction` builds this dict). -/
structure Interaction where
  prompt_id : String
  timestamp : ℚ
  type : String
  metadata : Metadata
  deriving Repr, DecidableEq

/-- Per-user tracking state: the `defaultdict` value
`{'views': [], 'uses': [], 'remixes': [], 'skips': [],
  'categories': defaultdict(float)}` from `__init__`.
The inner category map is an association list whose absent keys read as 0. -/
structure UserData where
  views : List Interaction
  uses : List Interaction
  remixes : List Interaction
  skips : List Interaction
  categories : List (String × ℚ)
  deriving Repr, DecidableEq

/-- The default per-user entry produced by the `defaultdict` factory. -/
def defaultUserData : UserData :=
  { views := [], uses := [], remixes := [], skips := [], categories := [] }

/-- Mutable state of a `FeedAlgorithm` instance.
`user_interactions` is a `defaultdict`, modelled as a total function whose
unwritten keys hold `defaultUserData`; its key set is never iterated by the
source, so the function view is faithful. `trending_patterns` is a
`defaultdict(float)` whose key set IS observable (it is iterated and keys
are deleted), so it is an insertion-ordered association list.
`emerging_creators` is initialised in `__init__` and never touched again. -/
structure EngineState where
  user_interactions : String → UserData
  trending_patterns : List (String × ℚ)
  emerging_creators : List String

/-- The freshly constructed engine (`FeedAlgorithm.__init__`). -/
def initState : EngineState :=
  { user_interactions := fun _ => defaultUserData
    trending_patterns := []
    emerging_creators := [] }

/-- `self.viral_thresholds['remix_rate']` (0.1, "10% of users remix"). -/
def viral_remix_rate_threshold : ℚ := 1/10

/-- Association-list lookup (first matching key), the read of a Python dict. -/
def alookup : List (String × ℚ) → String → Option ℚ
  | [], _ => none
  | (k, v) :: t, i => if k = i then some v else alookup t i

/-- Read with the `defaultdict(float)` default: absent keys are 0. -/
def dlookup (l : List (String × ℚ)) (i : String) : ℚ :=
  (alookup l i).getD 0

/-- In-place update of a dict entry through its current value (`d[k] op= x`):
the first entry with key `i` is rewritten; a missing key is first created
holding the `defaultdict(float)` default 0 and then updated, which in a
Python dict appends it at the end of iteration order. -/
def updateAt : List (String × ℚ) → String → (ℚ → ℚ) → List (String × ℚ)
  | [], i, f => [(i, f 0)]
  | (k, v) :: t, i, f => if k = i then (k, f v) :: t else (k, v) :: updateAt t i f

/-- `_update_trending_patterns` lines 256-262: the event-kind weight map,
with `weight_map.get(interaction_type, 0)` for unknown kinds. -/
def weight_map : String → ℚ := fun kind =>
  if kind = "view" then 1/10
  else if kind = "use" then 1/2
  else if kind = "remix" then 2
  else if kind = "share" then 3/2
  else if kind = "skip" then -3/10
  else 0

/-- The decay loop of `_update_trending_patterns` lines 267-271: every
tracked entry is multiplied by 0.99 and an entry is deleted when the decayed
value falls below 0.01 (kept exactly when `0.01 <= value`, i.e. when
`value < 0.01` is false). Iteration order of the dict is list order. -/
def decayEvict (l : List (String × ℚ)) : List (String × ℚ) :=
  (l.map (fun e => (e.1, e.2 * (99/100)))).filter (fun e => decide ((1:ℚ)/100 ≤ e.2))

/-- `_update_trending_patterns`: add the event weight to the item's momentum
(`self.trending_patterns[prompt_id] += weight`, creating the entry at 0 if
absent), then run the global decay/eviction pass over every tracked item. -/
def update_trending_patterns (tp : List (String × ℚ)) (prompt_id : String)
    (interaction_type : String) : List (String × ℚ) :=
  decayEvict (updateAt tp prompt_id (fun m => m + weight_map interaction_type))

/-- `_handle_viral_prompt`: `self.trending_patterns[prompt_id] *= 2.0`
(a missing key is created at the default 0 and doubled to 0). -/
def handle_viral_prompt (tp : List (String × ℚ)) (prompt_id : String) :
    List (String × ℚ) :=
  updateAt tp prompt_id (fun m => m * 2)

/-- `_check_viral_threshold`. `_get_prompt_data` is a stub in the source
(it returns `None`: "Would query database in production"), so the item
store is passed as an explicit parameter `store`; the source behaviour is
`store = fun _ => none`. When data is present and `usage_count > 0`, the
remix rate `remix_count / usage_count` is compared against the 0.1
threshold and the momentum is doubled on every call on which the rate
exceeds it — the source keeps no per-item "already amplified" flag. -/
def check_viral_threshold (store : String → Option Prompt)
    (tp : List (String × ℚ)) (prompt_id : String) : List (String × ℚ) :=
  match store prompt_id with
  | none => tp
  | some prompt =>
    if 0 < prompt.usage_count then
      if viral_remix_rate_threshold < (prompt.remix_count : ℚ) / (prompt.usage_count : ℚ) then
        handle_viral_prompt tp prompt_id
      else tp
    else tp

/-- `p` occurs at the start of `s` (substring test helper for `in`). -/
def charStartsWith : List Char → List Char → Bool
  | _, [] => true
  | [], _ :: _ => false
  | a :: s, b :: p => a == b && charStartsWith s p

/-- `p` occurs somewhere inside `s` (Python `pat in s` on strings). -/
def charContains : List Char → List Char → Bool
  | [], p => charStartsWith [] p
  | a :: s, p => charStartsWith (a :: s) p || charContains s p

/-- Python `pat in s` for strings. -/
def strContains (s pat : String) : Bool :=
  charContains s.data pat.data

/-- `_get_prompt_category`: keyword buckets over `template.lower()`. -/
def get_prompt_category (prompt : Prompt) : String :=
  let t := prompt.template.toLower
  if strContains t "startup" || strContains t "business" then "business"
  else if strContains t "code" || strContains t "programming" then "technical"
  else if strContains t "write" || strContains t "story" then "creative"
  else if strContains t "analyze" || strContains t "data" then "analytical"
  else "general"

/-- Modelled from the spec: `_update_category_affinities` is called from
`record_interaction` but missing from the source. Spec section 4.2 gives the
rule `affinity[cat] = affinity[cat]*0.9 + weight*0.1` for the category of
the interacted item; the item's category comes from the external item store
plus the categoriser, and an item unknown to the store leaves the
affinities unchanged. -/
def update_category_affinities (store : String → Option Prompt)
    (ud : UserData) (prompt_id : String) (weight : ℚ) : UserData :=
  match store prompt_id with
  | none => ud
  | some p =>
    let newCategories :=
      updateAt ud.categories (get_prompt_category p)
        (fun a => a * (9/10) + weight * (1/10))
    { ud with categories := newCategories }

/-- The per-user part of `record_interaction` lines 85-105: build the
interaction record, append it to the kind's log and update category
affinities with the kind-specific weight (use 1.0, remix 2.0, skip -0.5);
a kind outside the four-branch if/elif chain touches nothing here. -/
def record_user_event (store : String → Option Prompt) (ud : UserData)
    (prompt_id : String) (interaction_type : String) (now : ℚ)
    (metadata : Metadata) : UserData :=
  let inter : Interaction :=
    { prompt_id := prompt_id, timestamp := now, type := interaction_type, metadata := metadata }
  if interaction_type = "view" then
    { ud with views := ud.views ++ [inter] }
  else if interaction_type = "use" then
    update_category_affinities store { ud with uses := ud.uses ++ [inter] } prompt_id 1
  else if interaction_type = "remix" then
    update_category_affinities store { ud with remixes := ud.remixes ++ [inter] } prompt_id 2
  else if interaction_type = "skip" then
    update_category_affinities store { ud with skips := ud.skips ++ [inter] } prompt_id (-(1/2))
  else ud

/-- `record_interaction`: update the caller's user log (lines 92-105), then
the global trend map (line 108), then run the viral check (line 111).
`datetime.utcnow()` is the explicit `now`; the item store consulted by the
viral check is the explicit `store` (`fun _ => none` in the source). -/
def record_interaction (store : String → Option Prompt) (s : EngineState)
    (user_id prompt_id interaction_type : String) (now : ℚ)
    (metadata : Metadata) : EngineState :=
  let newUd :=
    record_user_event store (s.user_interactions user_id) prompt_id
      interaction_type now metadata
  let newLogs := fun v => if v = user_id then newUd else s.user_interactions v
  let s1 : EngineState := { s with user_interactions := newLogs }
  let tp1 := update_trending_patterns s1.trending_patterns prompt_id interaction_type
  { s1 with trending_patterns := check_viral_threshold store tp1 prompt_id }

/-- The source item store: `_get_prompt_data` always returns `None`. -/
def get_prompt_data : String → Option Prompt := fun _ => none

/-- Hours elapsed between a creation timestamp and `now`
(`(utcnow() - created_at).total_seconds() / 3600`). -/
def age_hours (now created_at : ℚ) : ℚ := (now - created_at) / 3600

/-- `_calculate_viral_potential` line 181: `remix_count / max(usage_count, 1)`.
The denominator is clamped to 1, so a zero usage count yields the raw
remix count, not 0. -/
def remix_rate (p : Prompt) : ℚ := (p.remix_count : ℚ) / ((max p.usage_count 1 : ℕ) : ℚ)

/-- `_calculate_viral_potential` line 182: `unique_users / max(usage_count, 1)`. -/
def user_retention (p : Prompt) : ℚ := (p.unique_users : ℚ) / ((max p.usage_count 1 : ℕ) : ℚ)

/-- `_calculate_viral_potential`: weighted blend of remix signal,
stickiness, current momentum and a freshness bonus (age < 24h gives 1.0,
otherwise 0.8). `utcnow()` is the explicit `now`. -/
def calculate_viral_potential (now : ℚ) (p : Prompt) : ℚ :=
  let recency_boost : ℚ := if age_hours now p.created_at < 24 then 1 else 4/5
  (2/5) * min (remix_rate p * 10) 1 +
    (3/10) * user_retention p +
    (1/5) * p.trending_score +
    (1/10) * recency_boost

/-- `_apply_diversity_filter`. The accumulator `seen_creators` is
initialised as a Python `set()` (line 206), but the first statement of the
loop body calls `seen_creators.count(...)` (line 213); the built-in `set`
type has no `count` method, so that attribute lookup raises
`AttributeError` on the first iteration. The function therefore returns
the empty selection on an empty input and raises on any non-empty input,
before any candidate can be accepted. -/
def apply_diversity_filter (scored_candidates : List (ℝ × Prompt))
    (_target_count : ℕ) : Except String (List Prompt) :=
  match scored_candidates with
  | [] => .ok []
  | _ :: _ => .error "AttributeError: set object has no attribute count"

/-- `_inject_exploration` line 236: `max(2, int(target_count * 0.1))`.
Python `int()` truncates toward zero; the argument is non-negative here,
so this is the floor of one tenth of the target. -/
def exploration_slots (target_count : ℕ) : ℕ :=
  max 2 ⌊(target_count : ℚ) * (1/10)⌋₊

/-- `_get_exploration_candidates`: the source stub returns the empty list
("would query database for random high-performing prompts"). -/
def get_exploration_candidates : ℕ → List Prompt := fun _ => []

/-- The insertion loop of `_inject_exploration` lines 242-247: each
exploration prompt overwrites the position drawn by `random.randint(0,
target_count - 1)` when the feed already holds at least `target_count`
items, and is appended otherwise. The random draws are an explicit oracle
`rand`: `rand n` is the n-th draw and is assumed in range. -/
def injectLoop : List Prompt → ℕ → List Prompt → (ℕ → ℕ) → ℕ → List Prompt
  | feed, _, [], _, _ => feed
  | feed, target_count, p :: ps, rand, n =>
    if target_count ≤ feed.length then
      injectLoop (feed.set (rand n) p) target_count ps rand (n + 1)
    else
      injectLoop (feed ++ [p]) target_count ps rand (n + 1)

/-- `_inject_exploration`: fetch `exploration_slots target_count` prompts
from the exploration source (a stub returning `[]` in the source; kept as
the explicit parameter `explor`), run the insertion loop, and return
`feed[:target_count]`. -/
def inject_exploration (feed : List Prompt) (target_count : ℕ)
    (explor : ℕ → List Prompt) (rand : ℕ → ℕ) : List Prompt :=
  let exploration_prompts := explor (exploration_slots target_count)
  (injectLoop feed target_count exploration_prompts rand 0).take target_count

/-- A user profile as assembled by `_build_user_profile`. The traits
below `category_preferences` are produced by helper methods that are
called but missing from the source; they are modelled from spec
section 4.2 and only `exploration_appetite` (read by the scorer and by
claim C9) and the novelty exposure counts (read by the scorer) matter to
any claim. The time-of-day pattern trait is read nowhere in the source
and is omitted. -/
structure Profile where
  user_id : String
  category_preferences : List (String × ℚ)
  skill_level : ℚ
  exploration_appetite : ℚ
  seen_by_category : String → ℕ

/-- Total number of logged interactions of a user. -/
def total_interactions (ud : UserData) : ℕ :=
  ud.views.length + ud.uses.length + ud.remixes.length + ud.skips.length

/-- Modelled from the spec: `_calculate_exploration_appetite` is called in
`_build_user_profile` but missing from the source. Spec section 7: a user
with no history gets an appetite "defaulted high (to favor early
exploration)" — high means above the 0.7 gate the scorer uses for its
exploration boost; section 4.2: otherwise a tunable heuristic monotonic in
the variety of categories interacted with. -/
def calculate_exploration_appetite (ud : UserData) : ℚ :=
  if total_interactions ud = 0 then 9/10
  else min 1 ((ud.categories.length : ℚ) / 10)

/-- Modelled from the spec: `_estimate_skill_level` is called in
`_build_user_profile` but missing from the source. Spec section 4.2 only
requires a heuristic monotonic in usage volume. -/
def estimate_skill_level (ud : UserData) : ℚ :=
  min 1 ((ud.uses.length + ud.remixes.length : ℚ) / 20)

/-- Modelled from the spec: the per-category exposure counts behind
`_count_similar_seen` (missing from the source). Spec section 4.1: novelty
uses `seen_similar`, the number of prior exposures (views) of this user to
candidates sharing the candidate's category; categorising a viewed item
needs the external item store, and items unknown to it count as unseen. -/
def count_seen_by_category (store : String → Option Prompt) (ud : UserData)
    (cat : String) : ℕ :=
  (ud.views.filter (fun ev =>
    match store ev.prompt_id with
    | some p => decide (get_prompt_category p = cat)
    | none => false)).length

/-- `_build_user_profile`: reads the user's `defaultdict` entry (a fresh
default for a never-seen user) and assembles the profile fields;
`category_preferences` is the live category-affinity map. -/
def build_user_profile (store : String → Option Prompt) (s : EngineState)
    (user_id : String) : Profile :=
  let ud := s.user_interactions user_id
  { user_id := user_id
    category_preferences := ud.categories
    skill_level := estimate_skill_level ud
    exploration_appetite := calculate_exploration_appetite ud
    seen_by_category := count_seen_by_category store ud }

/-- Modelled from the spec: `_count_similar_seen` (missing from the
source), read through the profile's exposure counts. -/
def count_similar_seen (p : Prompt) (profile : Profile) : ℕ :=
  profile.seen_by_category (get_prompt_category p)

/-- Modelled from the spec: `_calculate_user_affinity` is called by the
scorer but missing from the source. Spec section 4.1: the profile's
affinity for the candidate's category, clamped to [0,1]. -/
def calculate_user_affinity (p : Prompt) (profile : Profile) : ℚ :=
  min 1 (max 0 (dlookup profile.category_preferences (get_prompt_category p)))

/-- `_calculate_prompt_score`. Six weighted sub-scores with the weights of
`self.recommendation_weights` (effectiveness 0.3, novelty 0.2,
viral_potential 0.2, user_affinity 0.15, recency 0.1, creator_trust 0.05),
then a 1.2 boost when the profile's exploration appetite exceeds 0.7.
`datetime.utcnow()` is read INSIDE the method (twice: line 153 and, through
`_calculate_viral_potential`, line 186); it is the explicit `now` here.
`_get_creator_trust_score` is missing from the source and modelled from
spec section 4.1 as an externally supplied per-creator score, the explicit
`trust`. `np.exp` is the real exponential, which puts the result in `ℝ`. -/
noncomputable def calculate_prompt_score (trust : String → ℚ) (now : ℚ)
    (p : Prompt) (profile : Profile) : ℝ :=
  let effectiveness : ℝ := (p.effectiveness_score : ℝ)
  let novelty : ℝ := 1 / (1 + (count_similar_seen p profile : ℝ))
  let viral : ℝ := ((calculate_viral_potential now p : ℚ) : ℝ)
  let affinity : ℝ := ((calculate_user_affinity p profile : ℚ) : ℝ)
  let recency : ℝ := Real.exp (-((age_hours now p.created_at : ℚ) : ℝ) / 168)
  let trust_score : ℝ := ((trust p.creator_id : ℚ) : ℝ)
  let final_score : ℝ :=
    (3/10) * effectiveness + (1/5) * novelty + (1/5) * viral +
      (3/20) * affinity + (1/10) * recency + (1/20) * trust_score
  if (7/10 : ℚ) < profile.exploration_appetite then final_score * (6/5)
  else final_score

/-- `scored_candidates.sort(key=lambda x: x[0], reverse=True)`: a stable
descending sort on the score component (Python sort is stable; with
`reverse=True` candidates with equal scores keep their original order). -/
noncomputable def sort_scored (l : List (ℝ × Prompt)) : List (ℝ × Prompt) :=
  l.mergeSort (fun a b => decide (b.1 ≤ a.1))

/-- `get_feed`: build the profile, gather `count * 5` candidates, score
them, sort descending, apply the diversity filter and the exploration
injector, and return the final feed. `_gather_candidates` and
`_track_impressions` are called but missing from the source:
the gatherer is modelled from spec section 6 as the external item-store
fetch (the explicit `gather`), and impression tracking has no specified
effect on the returned sequence (spec section 2 ends the flow with the
return), so it contributes nothing here. The `AttributeError` raised
inside `_apply_diversity_filter` propagates out of `get_feed`. -/
noncomputable def get_feed (store : String → Option Prompt)
    (gather : String → ℕ → List Prompt) (trust : String → ℚ)
    (explor : ℕ → List Prompt) (rand : ℕ → ℕ) (now : ℚ)
    (s : EngineState) (user_id : String) (count : ℕ) :
    Except String (List Prompt) :=
  let user_profile := build_user_profile store s user_id
  let candidates := gather user_id (count * 5)
  let scored_candidates :=
    candidates.map (fun p => (calculate_prompt_score trust now p user_profile, p))
  let sorted := sort_scored scored_candidates
  match apply_diversity_filter sorted count with
  | .error e => .error e
  | .ok diverse_feed => .ok (inject_exploration diverse_feed count explor rand)

/-! ## Concrete data used by counterexamples and witnesses -/

/-- A generic concrete candidate item. -/
def example_prompt : Prompt :=
  { effectiveness_score := 1/2, usage_count := 10, remix_count := 0
    unique_users := 5, trending_score := 0, created_at := 0
    creator_id := "creator1", template := "write a story" }

/-- An item with zero usage but nonzero remix and unique-user counts. -/
def zero_usage_prompt : Prompt :=
  { effectiveness_score := 1/2, usage_count := 0, remix_count := 3
    unique_users := 2, trending_score := 0, created_at := 0
    creator_id := "creator1", template := "" }

/-- An item above the viral threshold: remix rate 15/100 = 0.15 > 0.10
(the spec example `usage_count=100, remix_count=15`). -/
def viral_prompt : Prompt :=
  { effectiveness_score := 1/2, usage_count := 100, remix_count := 15
    unique_users := 40, trending_score := 0, created_at := 0
    creator_id := "creator1", template := "" }

/-- An item store that knows only the item "x" (it is viral). -/
def viral_store : String → Option Prompt :=
  fun i => if i = "x" then some viral_prompt else none

/-- An engine state with a single trending entry of momentum 1 on "x". -/
def stateX : EngineState :=
  { user_interactions := fun _ => defaultUserData
    trending_patterns := [("x", 1)]
    emerging_creators := [] }

/-- An engine state with a single trending entry of momentum 1 on "a". -/
def stateA : EngineState :=
  { user_interactions := fun _ => defaultUserData
    trending_patterns := [("a", 1)]
    emerging_creators := [] }

/-- A creator-trust source assigning every creator the trust score 0. -/
def trust_zero : String → ℚ := fun _ => 0

/-- A candidate whose metrics are all zero, created at time 0. -/
def c8_prompt : Prompt :=
  { effectiveness_score := 0, usage_count := 0, remix_count := 0
    unique_users := 0, trending_score := 0, created_at := 0
    creator_id := "c", template := "" }

/-- A profile with no affinities, no exposures and appetite 0. -/
def c8_profile : Profile :=
  { user_id := "u", category_preferences := [], skill_level := 0
    exploration_appetite := 0, seen_by_category := fun _ => 0 }

/-- A candidate gatherer returning one item whatever is asked. -/
def one_candidate_gather : String → ℕ → List Prompt :=
  fun _ _ => [example_prompt]

/-- Shift a candidate's creation timestamp by `delta` seconds. -/
def shift_created (delta : ℚ) (p : Prompt) : Prompt :=
  { p with created_at := p.created_at + delta }

/-! ## Helper lemmas about the association-list dict model -/


theorem alookup_updateAt_ne (l : List (String × ℚ)) (i j : String) (f : ℚ → ℚ)
    (h : j ≠ i) : alookup (updateAt l i f) j = alookup l j := by
  induction l with
  | nil =>
    simp only [updateAt, alookup]
    rw [if_neg (fun hh : i = j => h hh.symm)]
  | cons e t ih =>
    obtain ⟨k, v⟩ := e
    simp only [updateAt]
    by_cases hk : k = i
    · rw [if_pos hk]
      have hkj : ¬ k = j := fun hh => h (hk.symm.trans hh).symm
      simp only [alookup]
      rw [if_neg hkj, if_neg hkj]
    · rw [if_neg hk]
      simp only [alookup]
      by_cases hkj : k = j
      · rw [if_pos hkj, if_pos hkj]
      · rw [if_neg hkj, if_neg hkj]
        exact ih

theorem alookup_updateAt_self (l : List (String × ℚ)) (i : String) (f : ℚ → ℚ) :
    alookup (updateAt l i f) i = some (f (dlookup l i)) := by
  induction l with
  | nil => simp [updateAt, alookup, dlookup]
  | cons e t ih =>
    obtain ⟨k, v⟩ := e
    by_cases hk : k = i
    · subst hk
      simp [updateAt, alookup, dlookup]
    · simp only [updateAt]
      rw [if_neg hk]
      simp only [alookup, dlookup]
      rw [if_neg hk, if_neg hk]
      exact ih

theorem alookup_eq_none_of_not_mem (l : List (String × ℚ)) (j : String)
    (h : j ∉ l.map Prod.fst) : alookup l j = none := by
  induction l with
  | nil => rfl
  | cons e t ih =>
    obtain ⟨k, v⟩ := e
    simp only [List.map_cons] at h
    have hk : ¬ k = j := fun e => h (List.mem_cons.mpr (.inl e.symm))
    simp only [alookup]
    rw [if_neg hk]
    exact ih (fun hm => h (List.mem_cons.mpr (.inr hm)))

theorem mem_keys_updateAt (l : List (String × ℚ)) (i : String) (f : ℚ → ℚ)
    (j : String) (h : j ∈ (updateAt l i f).map Prod.fst) :
    j ∈ l.map Prod.fst ∨ j = i := by
  induction l with
  | nil =>
    simp only [updateAt, List.map_cons, List.map_nil] at h
    exact .inr (List.mem_singleton.mp h)
  | cons e t ih =>
    obtain ⟨k, v⟩ := e
    simp only [updateAt] at h
    simp only [List.map_cons]
    by_cases hk : k = i
    · rw [if_pos hk] at h
      simp only [List.map_cons] at h
      exact .inl h
    · rw [if_neg hk] at h
      simp only [List.map_cons] at h
      rcases List.mem_cons.mp h with h1 | h1
      · exact .inl (List.mem_cons.mpr (.inl h1))
      · rcases ih h1 with h2 | h2
        · exact .inl (List.mem_cons.mpr (.inr h2))
        · exact .inr h2

theorem nodup_keys_updateAt (l : List (String × ℚ)) (i : String) (f : ℚ → ℚ)
    (h : (l.map Prod.fst).Nodup) : ((updateAt l i f).map Prod.fst).Nodup := by
  induction l with
  | nil => simp [updateAt]
  | cons e t ih =>
    obtain ⟨k, v⟩ := e
    simp only [List.map_cons, List.nodup_cons] at h
    simp only [updateAt]
    by_cases hk : k = i
    · rw [if_pos hk]
      simp only [List.map_cons, List.nodup_cons]
      exact h
    · rw [if_neg hk]
      simp only [List.map_cons, List.nodup_cons]
      refine ⟨?_, ih h.2⟩
      intro hmem
      rcases mem_keys_updateAt t i f k hmem with h1 | h1
      · exact h.1 h1
      · exact hk h1

theorem decayEvict_nil : decayEvict [] = [] := rfl

theorem decayEvict_cons (k : String) (v : ℚ) (t : List (String × ℚ)) :
    decayEvict ((k, v) :: t) =
      if (1:ℚ)/100 ≤ v * (99/100) then (k, v * (99/100)) :: decayEvict t
      else decayEvict t := by
  simp only [decayEvict, List.map_cons, List.filter_cons, decide_eq_true_eq]

theorem mem_keys_decayEvict (l : List (String × ℚ)) (j : String)
    (h : j ∈ (decayEvict l).map Prod.fst) : j ∈ l.map Prod.fst := by
  induction l with
  | nil =>
    rw [decayEvict_nil] at h
    simp at h
  | cons e t ih =>
    obtain ⟨k, v⟩ := e
    rw [decayEvict_cons] at h
    simp only [List.map_cons]
    by_cases hp : (1:ℚ)/100 ≤ v * (99/100)
    · rw [if_pos hp] at h
      simp only [List.map_cons] at h
      rcases List.mem_cons.mp h with h1 | h1
      · exact List.mem_cons.mpr (.inl h1)
      · exact List.mem_cons.mpr (.inr (ih h1))
    · rw [if_neg hp] at h
      exact List.mem_cons.mpr (.inr (ih h))

/-- Lookup through the decay/eviction pass: a tracked entry is scaled by
0.99 and survives exactly when the scaled value stays at least 0.01. -/
theorem alookup_decayEvict (l : List (String × ℚ)) (j : String)
    (h : (l.map Prod.fst).Nodup) :
    alookup (decayEvict l) j =
      (alookup l j).bind (fun m =>
        if (1:ℚ)/100 ≤ m * (99/100) then some (m * (99/100)) else none) := by
  induction l with
  | nil => rfl
  | cons e t ih =>
    obtain ⟨k, v⟩ := e
    simp only [List.map_cons, List.nodup_cons] at h
    rw [decayEvict_cons]
    by_cases hj : k = j
    · subst hj
      have hsome : alookup ((k, v) :: t) k = some v := by
        simp [alookup]
      rw [hsome, Option.some_bind]
      by_cases hp : (1:ℚ)/100 ≤ v * (99/100)
      · rw [if_pos hp, if_pos hp]
        simp [alookup]
      · rw [if_neg hp, if_neg hp]
        exact alookup_eq_none_of_not_mem _ _
          (fun hmem => h.1 (mem_keys_decayEvict t k hmem))
    · have hl : alookup ((k, v) :: t) j = alookup t j := by
        simp only [alookup]
        rw [if_neg hj]
      rw [hl]
      by_cases hp : (1:ℚ)/100 ≤ v * (99/100)
      · rw [if_pos hp]
        have hl2 : alookup ((k, v * (99/100)) :: decayEvict t) j =
            alookup (decayEvict t) j := by
          simp only [alookup]
          rw [if_neg hj]
        rw [hl2]
        exact ih h.2
      · rw [if_neg hp]
        exact ih h.2

/-- Entries that survive the decay/eviction pass are at least 0.01. -/
theorem decayEvict_lower_bound (l : List (String × ℚ)) (j : String) (m : ℚ)
    (h : alookup (decayEvict l) j = some m) : (1:ℚ)/100 ≤ m := by
  induction l with
  | nil =>
    rw [decayEvict_nil] at h
    simp [alookup] at h
  | cons e t ih =>
    obtain ⟨k, v⟩ := e
    rw [decayEvict_cons] at h
    by_cases hp : (1:ℚ)/100 ≤ v * (99/100)
    · rw [if_pos hp] at h
      simp only [alookup] at h
      by_cases hj : k = j
      · rw [if_pos hj] at h
        exact (Option.some.inj h) ▸ hp
      · rw [if_neg hj] at h
        exact ih h
    · rw [if_neg hp] at h
      exact ih h

/-- The viral check never touches entries of other items. -/
theorem alookup_check_viral_ne (store : String → Option Prompt)
    (tp : List (String × ℚ)) (i j : String) (h : j ≠ i) :
    alookup (check_viral_threshold store tp i) j = alookup tp j := by
  cases hs : store i with
  | none =>
    simp only [check_viral_threshold, hs]
  | some p =>
    simp only [check_viral_threshold, hs]
    by_cases h1 : 0 < p.usage_count
    · rw [if_pos h1]
      by_cases h2 : viral_remix_rate_threshold < (p.remix_count : ℚ) / (p.usage_count : ℚ)
      · rw [if_pos h2]
        simp only [handle_viral_prompt]
        exact alookup_updateAt_ne _ _ _ _ h
      · rw [if_neg h2]
    · rw [if_neg h1]

/-! ## Claim theorems -/

/-- C1 (code_bug): the claim says `_apply_diversity_filter` is a greedy
order-preserving pass enforcing the per-creator cap 2 and per-category
cap 5. The code instead raises on every non-empty input: `seen_creators`
is a Python `set`, which has no `count` method, so the first loop
iteration raises `AttributeError` before any candidate can be accepted.
This theorem evaluates the filter at the failing input, a single scored
candidate. -/
theorem C1_diversity_filter_raises :
    apply_diversity_filter [((1:ℝ), example_prompt)] 20 =
      Except.error "AttributeError: set object has no attribute count" := rfl

/-- C2 (code_bug): with an item store holding the item "x" at remix rate
0.15 > 0.10 (the spec example) and momentum 1, the viral check doubles the
momentum on EVERY call — two successive checks yield 2 and then 4 — because
`_check_viral_threshold` keeps no "already amplified for this crossing"
flag. The claim (amplify exactly once per crossing) is violated by the
second check. -/
theorem C2_viral_amplifies_on_every_check :
    check_viral_threshold viral_store [("x", 1)] "x" = [("x", 2)] ∧
      check_viral_threshold viral_store
        (check_viral_threshold viral_store [("x", 1)] "x") "x" = [("x", 4)] := by
  have h1 : check_viral_threshold viral_store [("x", 1)] "x" = [("x", 2)] := by
    simp [check_viral_threshold, viral_store, viral_prompt, handle_viral_prompt,
      updateAt, viral_remix_rate_threshold]
    norm_num
  refine ⟨h1, ?_⟩
  rw [h1]
  simp [check_viral_threshold, viral_store, viral_prompt, handle_viral_prompt,
    updateAt, viral_remix_rate_threshold]
  norm_num

/-- C3 counterexample: the claim says every ratio over an item with
`usage_count = 0` evaluates to 0 regardless of the other counts. On
`zero_usage_prompt` (usage 0, remix 3, unique users 2) the code computes
`remix_count / max(usage_count, 1) = 3/1 = 3` and the retention ratio
`2/1 = 2`: the clamped denominator yields the raw numerator, not 0. -/
theorem C3_zero_usage_ratio_not_zero :
    zero_usage_prompt.usage_count = 0 ∧
      remix_rate zero_usage_prompt = 3 ∧
      user_retention zero_usage_prompt = 2 ∧
      (3:ℚ) ≠ 0 := by
  refine ⟨rfl, ?_, ?_, by norm_num⟩
  · norm_num [remix_rate, zero_usage_prompt]
  · norm_num [user_retention, zero_usage_prompt]

/-- C3 (corrected): when `usage_count = 0` the denominators in
`_calculate_viral_potential` are clamped to 1, so `remix_rate` equals the
raw `remix_count` and `user_retention` the raw `unique_users` — no
division by zero is ever performed and no error is raised (the value is 0
only when the numerator is 0); `_check_viral_threshold` computes no ratio
at all for such an item (its `usage_count > 0` guard fails) and leaves the
trend state unchanged. -/
theorem C3_zero_usage_clamped (p : Prompt) (store : String → Option Prompt)
    (tp : List (String × ℚ)) (i : String) (h : p.usage_count = 0) :
    remix_rate p = p.remix_count ∧
      user_retention p = p.unique_users ∧
      (store i = some p → check_viral_threshold store tp i = tp) := by
  refine ⟨?_, ?_, ?_⟩
  · simp [remix_rate, h]
  · simp [user_retention, h]
  · intro hs
    simp [check_viral_threshold, hs, h]

/-- Witness for C3: the amended statement evaluated on
`zero_usage_prompt` with a one-item store. -/
theorem C3_zero_usage_clamped_witness :
    remix_rate zero_usage_prompt = zero_usage_prompt.remix_count ∧
      user_retention zero_usage_prompt = zero_usage_prompt.unique_users ∧
      ((fun _ => some zero_usage_prompt) "z" = some zero_usage_prompt →
        check_viral_threshold (fun _ => some zero_usage_prompt) [("x", 1)] "z" = [("x", 1)]) :=
  C3_zero_usage_clamped zero_usage_prompt (fun _ => some zero_usage_prompt)
    [("x", 1)] "z" rfl

/-- C6 counterexample: the claim says the exploration slot count equals
`max(2, round(0.1 * target_count))`. The code uses Python `int()`, which
truncates: at `target_count = 29` the code requests `max(2, int(2.9)) = 2`
slots while the claim demands `max(2, round(2.9)) = 3`. -/
theorem C6_slots_truncate_not_round :
    exploration_slots 29 = 2 ∧
      ((exploration_slots 29 : ℤ) ≠ max 2 (round ((29:ℚ) * (1/10)))) := by
  have h : exploration_slots 29 = 2 := by
    unfold exploration_slots
    norm_num [Nat.floor_div_ofNat]
  refine ⟨h, ?_⟩
  rw [h]
  have hr : round ((29:ℚ) * (1/10)) = 3 := by
    norm_num [round_eq]
  rw [hr]
  norm_num

/-- C6 (corrected): for every target count the number of exploration slots
requested from the exploration source is `max(2, ⌊0.1 * target_count⌋)` —
`int()` truncation (= floor on this non-negative argument), not rounding. -/
theorem C6_slots_formula (target_count : ℕ) :
    exploration_slots target_count = max 2 (target_count / 10) := by
  unfold exploration_slots
  rw [mul_one_div, Nat.floor_div_ofNat, Nat.floor_natCast]

/-- C4 counterexample: the claim says an unknown interaction kind leaves
ALL engine state exactly unchanged. Recording kind "like" (unknown) for
item "p" on a state whose trend map holds ("a", 1) still runs the global
decay pass of `_update_trending_patterns`: the resulting trend map is
[("a", 0.99)], not the original [("a", 1)]. -/
theorem C4_unknown_kind_mutates_trend_state :
    (record_interaction get_prompt_data stateA "u" "p" "like" 0 []).trending_patterns
        = [("a", 99/100)] ∧
      [(("a":String), (99:ℚ)/100)] ≠ stateA.trending_patterns := by
  constructor
  · simp [record_interaction, stateA, record_user_event, update_trending_patterns,
      updateAt, decayEvict, weight_map, check_viral_threshold, get_prompt_data]
    norm_num
  · simp [stateA]
    norm_num

/-- C4 (corrected): a kind outside {view, use, remix, skip, share} is not
rejected and leaves the per-user logs (and affinities) unchanged, but the
call is NOT a complete no-op: the global trend map still undergoes the
0-weight bump of the recorded item followed by the 0.99 decay/eviction
pass over every tracked entry. -/
theorem C4_unknown_kind_effect (s : EngineState)
    (user_id prompt_id kind : String) (now : ℚ) (metadata : Metadata)
    (h1 : kind ≠ "view") (h2 : kind ≠ "use") (h3 : kind ≠ "remix")
    (h4 : kind ≠ "skip") (h5 : kind ≠ "share") :
    (record_interaction get_prompt_data s user_id prompt_id kind now metadata).user_interactions
        = s.user_interactions ∧
      (record_interaction get_prompt_data s user_id prompt_id kind now metadata).trending_patterns
        = decayEvict (updateAt s.trending_patterns prompt_id (fun m => m + 0)) := by
  have hw : weight_map kind = 0 := by
    simp [weight_map, h1, h2, h3, h4, h5]
  have hue : record_user_event get_prompt_data (s.user_interactions user_id)
      prompt_id kind now metadata = s.user_interactions user_id := by
    simp [record_user_event, h1, h2, h3, h4]
  constructor
  · funext v
    show (if v = user_id then
        record_user_event get_prompt_data (s.user_interactions user_id)
          prompt_id kind now metadata
      else s.user_interactions v) = s.user_interactions v
    rw [hue]
    by_cases hv : v = user_id
    · rw [if_pos hv, hv]
    · rw [if_neg hv]
  · show update_trending_patterns s.trending_patterns prompt_id kind
        = decayEvict (updateAt s.trending_patterns prompt_id (fun m => m + 0))
    unfold update_trending_patterns
    rw [hw]

/-- Witness for C4: the amended statement evaluated at kind "like". -/
theorem C4_unknown_kind_effect_witness :
    ("like" ≠ "view") ∧
      ((record_interaction get_prompt_data stateA "u" "p" "like" 0 []).user_interactions
          = stateA.user_interactions ∧
        (record_interaction get_prompt_data stateA "u" "p" "like" 0 []).trending_patterns
          = decayEvict (updateAt stateA.trending_patterns "p" (fun m => m + 0))) :=
  ⟨by decide,
    C4_unknown_kind_effect stateA "u" "p" "like" 0 []
      (by decide) (by decide) (by decide) (by decide) (by decide)⟩

/-- C5 counterexample: the claim attributes the decay to wall-clock time,
0.99 per elapsed unit since the item's last update. The code applies no
time-based decay at all: it multiplies by 0.99 once per recorded event.
Recording two events for item "y" at the SAME timestamp (elapsed wall-clock
time 0, for which the claimed law yields a factor 0.99^0 = 1) still scales
the untouched item "x" from momentum 1 down to 0.9801 = 0.99². -/
theorem C5_decay_is_per_event_not_per_time :
    dlookup (record_interaction get_prompt_data
        (record_interaction get_prompt_data stateX "u" "y" "view" 5 [])
        "u" "y" "view" 5 []).trending_patterns "x" = 9801/10000 ∧
      (9801:ℚ)/10000 ≠ dlookup stateX.trending_patterns "x" * (99/100) ^ (0:ℕ) := by
  have key : ∀ s : EngineState,
      (record_interaction get_prompt_data s "u" "y" "view" 5 []).trending_patterns
        = update_trending_patterns s.trending_patterns "y" "view" := fun _ => rfl
  have h1 : update_trending_patterns [("x", 1)] "y" "view"
      = [("x", 99/100), ("y", 99/1000)] := by
    simp [update_trending_patterns, updateAt, decayEvict, weight_map]
    norm_num
  have h2 : update_trending_patterns [("x", 99/100), ("y", 99/1000)] "y" "view"
      = [("x", 9801/10000), ("y", 19701/100000)] := by
    simp [update_trending_patterns, updateAt, decayEvict, weight_map]
    norm_num
  constructor
  · rw [key, key]
    show dlookup (update_trending_patterns
      (update_trending_patterns [("x", 1)] "y" "view") "y" "view") "x" = 9801/10000
    rw [h1, h2]
    simp [dlookup, alookup]
  · simp [stateX, dlookup, alookup]
    norm_num

/-- C5 (corrected): between events for an item — that is, across
`record_interaction` calls for other items — its momentum is multiplied by
exactly 0.99 per recorded event (independently of the timestamps), with
the entry evicted as soon as the decayed value drops below 0.01, and
momentum strictly increases only on an event recorded for that item itself
with a positive weight. Stated on states whose tracked momenta are all at
least 0.01, the invariant the decay/eviction pass itself maintains
(conjunct three). -/
theorem C5_momentum_per_event_evolution (s : EngineState)
    (user_id prompt_id kind : String) (now : ℚ) (metadata : Metadata)
    (hnd : (s.trending_patterns.map Prod.fst).Nodup)
    (hpos : ∀ j m, alookup s.trending_patterns j = some m → (1:ℚ)/100 ≤ m) :
    (∀ j, j ≠ prompt_id →
        alookup (record_interaction get_prompt_data s user_id prompt_id kind now
            metadata).trending_patterns j
          = (alookup s.trending_patterns j).bind (fun m =>
              if (1:ℚ)/100 ≤ m * (99/100) then some (m * (99/100)) else none) ∧
        dlookup (record_interaction get_prompt_data s user_id prompt_id kind now
            metadata).trending_patterns j ≤ dlookup s.trending_patterns j) ∧
      (∀ j, dlookup s.trending_patterns j
            < dlookup (record_interaction get_prompt_data s user_id prompt_id kind
                now metadata).trending_patterns j →
          j = prompt_id ∧ 0 < weight_map kind) ∧
      (∀ j m, alookup (record_interaction get_prompt_data s user_id prompt_id kind
            now metadata).trending_patterns j = some m → (1:ℚ)/100 ≤ m) := by
  have htp : (record_interaction get_prompt_data s user_id prompt_id kind now
        metadata).trending_patterns
      = decayEvict (updateAt s.trending_patterns prompt_id
          (fun m => m + weight_map kind)) := rfl
  have hA : ∀ j, j ≠ prompt_id →
      alookup (record_interaction get_prompt_data s user_id prompt_id kind now
          metadata).trending_patterns j
        = (alookup s.trending_patterns j).bind (fun m =>
            if (1:ℚ)/100 ≤ m * (99/100) then some (m * (99/100)) else none) := by
    intro j hj
    rw [htp, alookup_decayEvict _ _ (nodup_keys_updateAt _ _ _ hnd),
      alookup_updateAt_ne _ _ _ _ hj]
  have hC : ∀ j m, alookup (record_interaction get_prompt_data s user_id prompt_id
      kind now metadata).trending_patterns j = some m → (1:ℚ)/100 ≤ m := by
    intro j m hm
    rw [htp] at hm
    exact decayEvict_lower_bound _ _ _ hm
  have hAle : ∀ j, j ≠ prompt_id →
      dlookup (record_interaction get_prompt_data s user_id prompt_id kind now
          metadata).trending_patterns j ≤ dlookup s.trending_patterns j := by
    intro j hj
    have h1 := hA j hj
    cases ha : alookup s.trending_patterns j with
    | none =>
      rw [ha, Option.none_bind] at h1
      simp [dlookup, h1, ha]
    | some m =>
      have hm := hpos j m ha
      rw [ha, Option.some_bind] at h1
      by_cases hp : (1:ℚ)/100 ≤ m * (99/100)
      · rw [if_pos hp] at h1
        simp only [dlookup, h1, ha, Option.getD_some]
        nlinarith
      · rw [if_neg hp] at h1
        simp only [dlookup, h1, ha, Option.getD_some, Option.getD_none]
        linarith
  refine ⟨fun j hj => ⟨hA j hj, hAle j hj⟩, ?_, hC⟩
  intro j hlt
  by_cases hj : j = prompt_id
  · subst hj
    refine ⟨rfl, ?_⟩
    have hb : 0 ≤ dlookup s.trending_patterns j := by
      cases ha : alookup s.trending_patterns j with
      | none => simp [dlookup, ha]
      | some m =>
        have := hpos j m ha
        simp only [dlookup, ha, Option.getD_some]
        linarith
    have hself : alookup (updateAt s.trending_patterns j
        (fun m => m + weight_map kind)) j
        = some (dlookup s.trending_patterns j + weight_map kind) :=
      alookup_updateAt_self _ _ _
    have h2 : alookup (record_interaction get_prompt_data s user_id j kind now
        metadata).trending_patterns j
        = (some (dlookup s.trending_patterns j + weight_map kind)).bind (fun m =>
            if (1:ℚ)/100 ≤ m * (99/100) then some (m * (99/100)) else none) := by
      rw [htp, alookup_decayEvict _ _ (nodup_keys_updateAt _ _ _ hnd), hself]
    rw [Option.some_bind] at h2
    have hlt2 : dlookup s.trending_patterns j
        < (alookup (record_interaction get_prompt_data s user_id j kind now
            metadata).trending_patterns j).getD 0 := hlt
    rw [h2] at hlt2
    by_cases hp : (1:ℚ)/100 ≤ (dlookup s.trending_patterns j + weight_map kind) * (99/100)
    · rw [if_pos hp, Option.getD_some] at hlt2
      linarith
    · rw [if_neg hp, Option.getD_none] at hlt2
      linarith
  · exact absurd hlt (not_lt.mpr (hAle j hj))

/-- Witness for C5: the amended statement applied at a concrete state and
event, instantiated at the untouched item "x". -/
theorem C5_momentum_per_event_evolution_witness :
    alookup (record_interaction get_prompt_data stateX "u" "y" "view" 5
        []).trending_patterns "x"
      = (alookup stateX.trending_patterns "x").bind (fun m =>
          if (1:ℚ)/100 ≤ m * (99/100) then some (m * (99/100)) else none) := by
  have h := C5_momentum_per_event_evolution stateX "u" "y" "view" 5 []
    (by simp [stateX])
    (by
      intro j m hm
      by_cases hj : "x" = j
      · simp [stateX, alookup, hj] at hm
        rw [← hm]
        norm_num
      · simp [stateX, alookup, hj] at hm)
  exact (h.1 "x" (by decide)).1

/-- C10 (confirmed, implicit frame effect): EVERY `record_interaction`
call — whatever the interaction kind and whatever the item store returns —
runs the decay/eviction pass over the whole trend map, so the entry of any
unrelated tracked item `j` is multiplied by 0.99 (and removed exactly when
the decayed value falls below 0.01), and an untracked `j` stays untracked;
recording one event for one item really does change or evict the trend
state of every other tracked item. -/
theorem C10_record_decays_unrelated_items (store : String → Option Prompt)
    (s : EngineState) (user_id prompt_id interaction_type : String) (now : ℚ)
    (metadata : Metadata) (j : String)
    (hnd : (s.trending_patterns.map Prod.fst).Nodup)
    (hj : j ≠ prompt_id) :
    alookup (record_interaction store s user_id prompt_id interaction_type now
        metadata).trending_patterns j
      = (alookup s.trending_patterns j).bind (fun m =>
          if (1:ℚ)/100 ≤ m * (99/100) then some (m * (99/100)) else none) := by
  have htp : (record_interaction store s user_id prompt_id interaction_type now
        metadata).trending_patterns
      = check_viral_threshold store
          (decayEvict (updateAt s.trending_patterns prompt_id
            (fun m => m + weight_map interaction_type))) prompt_id := rfl
  rw [htp, alookup_check_viral_ne _ _ _ _ hj,
    alookup_decayEvict _ _ (nodup_keys_updateAt _ _ _ hnd),
    alookup_updateAt_ne _ _ _ _ hj]

/-- Witness for C10: the frame effect evaluated at a concrete state:
recording a "view" of item "p" decays the unrelated tracked item "a". -/
theorem C10_record_decays_unrelated_items_witness :
    alookup (record_interaction get_prompt_data stateA "u" "p" "view" 0
        []).trending_patterns "a"
      = (alookup stateA.trending_patterns "a").bind (fun m =>
          if (1:ℚ)/100 ≤ m * (99/100) then some (m * (99/100)) else none) :=
  C10_record_decays_unrelated_items get_prompt_data stateA "u" "p" "view" 0 [] "a"
    (by simp [stateA]) (by decide)

/-- C9 (confirmed; the appetite helper is missing from the source and
modelled from the spec): a user whose interaction history is the fresh
default — in particular any never-seen user, since `user_interactions` is
a `defaultdict` — receives a profile whose category-affinity map reads 0
for every category and whose exploration appetite is the high cold-start
default 0.9, above the scorer's 0.7 exploration gate. -/
theorem C9_cold_start_profile (store : String → Option Prompt) (s : EngineState)
    (user_id : String) (h : s.user_interactions user_id = defaultUserData) :
    (∀ cat, dlookup (build_user_profile store s user_id).category_preferences cat
        = 0) ∧
      (build_user_profile store s user_id).exploration_appetite = 9/10 ∧
      (7/10 : ℚ) < 9/10 := by
  refine ⟨?_, ?_, by norm_num⟩
  · intro cat
    simp [build_user_profile, h, defaultUserData, dlookup, alookup]
  · simp [build_user_profile, h, defaultUserData, calculate_exploration_appetite,
      total_interactions]

/-- Witness for C9: the cold-start profile of a brand-new user on the
freshly constructed engine, inspected at the category "business". -/
theorem C9_cold_start_profile_witness :
    initState.user_interactions "newuser" = defaultUserData ∧
      dlookup (build_user_profile get_prompt_data initState
          "newuser").category_preferences "business" = 0 ∧
      (build_user_profile get_prompt_data initState
          "newuser").exploration_appetite = 9/10 :=
  ⟨rfl,
    (C9_cold_start_profile get_prompt_data initState "newuser" rfl).1 "business",
    (C9_cold_start_profile get_prompt_data initState "newuser" rfl).2.1⟩

/-- C8 counterexample: the claim says two scorer invocations on identical
(candidate, profile) inputs return identical scores, with no hidden
time-dependent state beyond an explicit `now` parameter. The source scorer
has NO `now` parameter: it reads `datetime.utcnow()` internally (directly
for the recency factor and again inside `_calculate_viral_potential` for
the freshness bonus). Scoring the same zero-metric candidate with the same
profile at clock reading 0 and at clock reading 172800 (48 hours later)
yields different scores: the recency factor drops from exp(0) = 1 to
exp(-2/7) < 1 and the freshness bonus from 1.0 to 0.8. -/
theorem C8_score_reads_the_clock :
    calculate_prompt_score trust_zero 172800 c8_prompt c8_profile ≠
      calculate_prompt_score trust_zero 0 c8_prompt c8_profile := by
  have h0 : calculate_prompt_score trust_zero 0 c8_prompt c8_profile = 8/25 := by
    simp [calculate_prompt_score, c8_prompt, c8_profile, trust_zero,
      count_similar_seen, calculate_viral_potential, calculate_user_affinity,
      remix_rate, user_retention, age_hours, dlookup, alookup]
    norm_num [Real.exp_zero]
  have h48 : calculate_prompt_score trust_zero 172800 c8_prompt c8_profile
      = 27/125 + (1/10) * Real.exp (-(2/7 : ℝ)) := by
    simp [calculate_prompt_score, c8_prompt, c8_profile, trust_zero,
      count_similar_seen, calculate_viral_potential, calculate_user_affinity,
      remix_rate, user_retention, age_hours, dlookup, alookup]
    norm_num
  rw [h0, h48]
  have hlt : Real.exp (-(2/7 : ℝ)) < 1 := Real.exp_lt_one_iff.mpr (by norm_num)
  have hpos : (0:ℝ) < Real.exp (-(2/7 : ℝ)) := Real.exp_pos _
  intro heq
  nlinarith [heq, hlt, hpos]

/-- C8 (corrected): the scorer is side-effect free and deterministic once
the internally read clock is made an explicit input: the score is a pure
function of (trust source, now, candidate, profile), and it depends on the
clock reading only through the candidate's age — jointly translating `now`
and `created_at` by any `delta` leaves the score unchanged. -/
theorem C8_score_pure_in_explicit_inputs (trust : String → ℚ) (now delta : ℚ)
    (p : Prompt) (profile : Profile) :
    calculate_prompt_score trust (now + delta) (shift_created delta p) profile
      = calculate_prompt_score trust now p profile := by
  have hage : age_hours (now + delta) (p.created_at + delta)
      = age_hours now p.created_at := by
    unfold age_hours
    ring_nf
  simp only [calculate_prompt_score, calculate_viral_potential, count_similar_seen,
    calculate_user_affinity, remix_rate, user_retention, get_prompt_category,
    shift_created, hage]

/-- C7 (code_bug): the claim says `get_feed` returns an ordered sequence
of length at most `count`. With any non-empty candidate gathering the call
cannot return at all: the scored candidates reach `_apply_diversity_filter`,
whose first loop iteration raises `AttributeError` (`seen_creators` is a
`set`, which has no `count` method), and the exception propagates out of
`get_feed`. Evaluated at `count = 1` with a one-item gatherer. -/
theorem C7_get_feed_raises :
    get_feed get_prompt_data one_candidate_gather trust_zero
        get_exploration_candidates (fun _ => 0) 0 initState "u" 1
      = Except.error "AttributeError: set object has no attribute count" := by
  unfold get_feed
  simp only [one_candidate_gather, List.map_cons, List.map_nil]
  rcases hs : sort_scored [(calculate_prompt_score trust_zero 0 example_prompt
      (build_user_profile get_prompt_data initState "u"), example_prompt)]
    with _ | ⟨hd, tl⟩
  · exfalso
    have hlen := congrArg List.length hs
    simp [sort_scored, List.length_mergeSort] at hlen
  · rfl
